import Mathlib

/-!
Verification of the HUD housing-data connector against its specification.

The development shallowly embeds the column-extraction, normalization,
validation and ingestion-checkpoint logic of the repository:

* `src/transforms/homeless_counts/main.py` — `_safe_int`, `_get_col`,
  `_extract_shelter_type`
* `src/transforms/fair_market_rents/main.py` — `_load_fmr_year`
* `src/transforms/income_limits/main.py` — `run`
* `src/nodes/hud_data.py` — `run` (checkpointed ingestion)
* the three `test.py` validators

Spreadsheet cells are modelled by an inductive `Cell` covering the Python
values that actually flow through this code: strings, ints, float NaN and
None.  Pandas data frames become a list of association-list rows plus a
column-name list.  The Python string/number primitives used by the code
(`str`, `int`, `.strip()`, `.lower()`, `.zfill()`, substring `in`) are
embedded for ASCII inputs, which is the alphabet of this data.
-/

/-- Cell values occurring in the spreadsheets processed by this repository:
Python strings, integers, float NaN, and None. -/
inductive Cell where
  | str (s : String)
  | int (n : Int)
  | nan
  | none
deriving DecidableEq, Repr

/-- Model of `pd.isna`: true exactly on NaN and None. -/
def Cell.isna : Cell → Bool
  | .nan => true
  | .none => true
  | _ => false

/-- Python truthiness of a cell value (`""` and `0` and `None` are falsy;
NaN is a non-zero float, hence truthy). -/
def Cell.truthy : Cell → Bool
  | .str s => !s.data.isEmpty
  | .int n => n != 0
  | .nan => true
  | .none => false

/-- Model of Python `str()` on a cell value. -/
def Cell.pyStr : Cell → String
  | .str s => s
  | .int n => toString n
  | .nan => "nan"
  | .none => "None"

/-- Whitespace characters stripped by Python `str.strip()` (ASCII subset). -/
def wsChar (c : Char) : Bool :=
  c = ' ' || c = '\t' || c = '\n' || c = '\r'

/-- Model of Python `str.strip()`: remove leading and trailing whitespace. -/
def pyStrip (s : String) : String :=
  String.mk (((s.data.dropWhile wsChar).reverse.dropWhile wsChar).reverse)

/-- Lower-casing of one ASCII character, as Python `str.lower()` does. -/
def lowCh (c : Char) : Char :=
  if 'A' ≤ c ∧ c ≤ 'Z' then Char.ofNat (c.toNat + 32) else c

/-- Model of Python `str.lower()` on ASCII strings. -/
def lowStr (s : String) : String := String.mk (s.data.map lowCh)

/-- Decimal value of a digit string (used after an all-digits test). -/
def digitsVal (l : List Char) : Nat :=
  l.foldl (fun a c => a * 10 + (c.toNat - 48)) 0

/-- Model of Python `int(string)`: optional surrounding whitespace, optional
sign, then one or more ASCII digits; anything else raises, modelled as
`Option.none`. -/
def pyParseInt (s : String) : Option Int :=
  match (pyStrip s).data with
  | [] => Option.none
  | '-' :: rest =>
      if rest ≠ [] ∧ rest.all Char.isDigit then Option.some (-(digitsVal rest : Int))
      else Option.none
  | '+' :: rest =>
      if rest ≠ [] ∧ rest.all Char.isDigit then Option.some (digitsVal rest : Int)
      else Option.none
  | l =>
      if l ≠ [] ∧ l.all Char.isDigit then Option.some (digitsVal l : Int)
      else Option.none

/-- Model of Python `int(val)` on a cell, with the exception reported in the
`Except` error: `int(None)` is a TypeError, `int(nan)` a ValueError, and a
non-numeric string a ValueError. -/
def pyInt : Cell → Except String Int
  | .int n => .ok n
  | .str s =>
      match pyParseInt s with
      | Option.some n => .ok n
      | Option.none => .error "ValueError: invalid literal for int()"
  | .nan => .error "ValueError: cannot convert float NaN to integer"
  | .none => .error "TypeError: int() argument is None"

/-- Model of Python `str.zfill(w)`: left-pad with zeros to width `w`, keeping
a leading sign in front of the padding. -/
def zfill (s : String) (w : Nat) : String :=
  if w ≤ s.length then s
  else
    let pad := List.replicate (w - s.length) '0'
    match s.data with
    | [] => String.mk pad
    | c :: rest =>
        if c = '+' ∨ c = '-' then String.mk (c :: (pad ++ rest))
        else String.mk (pad ++ (c :: rest))

/-- Does the character list start with the given needle? -/
def leadsWith : List Char → List Char → Bool
  | [], _ => true
  | _ :: _, [] => false
  | a :: as, b :: bs => a = b && leadsWith as bs

/-- Does the haystack contain the needle as a contiguous run? -/
def chContains (needle : List Char) : List Char → Bool
  | [] => needle.isEmpty
  | c :: t => leadsWith needle (c :: t) || chContains needle t

/-- Model of Python `pattern.lower() in name.lower()`. -/
def containsCI (pattern name : String) : Bool :=
  chContains (lowStr pattern).data (lowStr name).data

/-- Row of a pandas data frame: an association list from column name to
cell value. -/
abbrev Row := List (String × Cell)

/-- Data frame: the ordered column names plus the data rows. -/
structure DF where
  cols : List String
  rows : List Row
deriving DecidableEq, Repr

/-- Model of the pandas `row.get(key, default)` used in
`_extract_shelter_type`. -/
def rowGet (r : Row) (c : String) (d : Cell) : Cell :=
  match List.lookup c r with
  | Option.some v => v
  | Option.none => d

/-- Model of `df[c]`: the column's cells, or a KeyError when the column is
absent from the frame. -/
def dfColumn (df : DF) (c : String) : Except String (List Cell) :=
  if df.cols.contains c then
    .ok (df.rows.map (fun r => rowGet r c Cell.none))
  else
    .error ("KeyError: " ++ c)

/-! Section: Homeless-counts transform (`src/transforms/homeless_counts/main.py`) -/

/-- Embedding of `_safe_int`: convert to int, handling NaN/None; a
ValueError or TypeError is caught and becomes None. -/
def safe_int (val : Cell) : Option Int :=
  if val.isna then Option.none
  else
    match pyInt val with
    | .ok n => Option.some n
    | .error _ => Option.none

/-- Embedding of `_get_col`: for each pattern in order, collect the columns
whose name contains the pattern case-insensitively; the first pattern with a
non-empty match list yields that list's first column; otherwise None. -/
def get_col (cols : List String) : List String → Option String
  | [] => Option.none
  | p :: ps =>
    match cols.filter (fun c => containsCI p c) with
    | [] => get_col cols ps
    | c :: _ => Option.some c

/-- Column-name prefix selected from the shelter type at the top of
`_extract_shelter_type`. -/
def pfxOf (shelter_type : String) : String :=
  if shelter_type = "Overall" then "Overall Homeless"
  else if shelter_type = "Sheltered" then "Sheltered"
  else "Unsheltered"

/-- the `total_col` resolution of `_extract_shelter_type`. -/
def total_col (cols : List String) (p : String) : Option String :=
  get_col cols [p ++ " Homeless", p]

/-- the `under_18_col` resolution. -/
def under_18_col (cols : List String) (p : String) : Option String :=
  get_col cols [p ++ " Homeless - Under 18", p ++ " - Under 18"]

/-- the `age_18_24_col` resolution. -/
def age_18_24_col (cols : List String) (p : String) : Option String :=
  get_col cols [p ++ " Homeless - Age 18 to 24", p ++ " - 18 to 24"]

/-- the `over_24_col` resolution. -/
def over_24_col (cols : List String) (p : String) : Option String :=
  get_col cols [p ++ " Homeless - Over 24", p ++ " - Over 24"]

/-- the `individuals_col` resolution. -/
def individuals_col (cols : List String) (p : String) : Option String :=
  get_col cols [p ++ " Homeless - Homeless Individuals", p ++ " - Individuals"]

/-- the `families_col` resolution. -/
def families_col (cols : List String) (p : String) : Option String :=
  get_col cols [p ++ " Homeless - Homeless People in Families", p ++ " - Families"]

/-- the `veterans_col` resolution. -/
def veterans_col (cols : List String) (p : String) : Option String :=
  get_col cols [p ++ " Homeless - Veterans", p ++ " Veterans"]

/-- the `chronic_col` resolution. -/
def chronic_col (cols : List String) (p : String) : Option String :=
  get_col cols [p ++ " Homeless - Chronically Homeless", p ++ " Chronically"]

/-- Value of an output record's field: a string, or a nullable integer. -/
inductive Val where
  | vs (s : String)
  | vi (n : Option Int)
deriving DecidableEq, Repr

/-- Output record of the homeless-counts transform: the Python dict built in
`_extract_shelter_type`, as an association list. -/
abbrev HRec := List (String × Val)

/-- Embedding of `_safe_int(row.get(col)) if col else None`. -/
def metricVal (r : Row) (oc : Option String) : Option Int :=
  match oc with
  | Option.some c => safe_int (rowGet r c Cell.none)
  | Option.none => Option.none

/-- Body of the row loop of `_extract_shelter_type`: skip the row when the
CoC number is falsy or NaN, build the record dict, and keep it only when its
total is not None. -/
def processRow (cols : List String) (year : Nat) (shelter_type : String)
    (r : Row) : Option HRec :=
  let coc_number := rowGet r "CoC Number" (Cell.str "")
  let coc_name := rowGet r "CoC Name" (Cell.str "")
  if !coc_number.truthy || coc_number.isna then Option.none
  else
    let p := pfxOf shelter_type
    let total := metricVal r (total_col cols p)
    let record : HRec := [
      ("coc_number", .vs (pyStrip coc_number.pyStr)),
      ("coc_name", .vs (if coc_name.truthy && !coc_name.isna
                        then pyStrip coc_name.pyStr else "")),
      ("year", .vs (toString year)),
      ("count_type", .vs shelter_type),
      ("total", .vi total),
      ("under_18", .vi (metricVal r (under_18_col cols p))),
      ("age_18_to_24", .vi (metricVal r (age_18_24_col cols p))),
      ("over_24", .vi (metricVal r (over_24_col cols p))),
      ("individuals", .vi (metricVal r (individuals_col cols p))),
      ("people_in_families", .vi (metricVal r (families_col cols p))),
      ("veterans", .vi (metricVal r (veterans_col cols p))),
      ("chronically_homeless", .vi (metricVal r (chronic_col cols p)))]
    if total.isSome then Option.some record else Option.none

/-- Embedding of `_extract_shelter_type`: process each row in order,
emitting the records the loop appends. -/
def extract_shelter_type (df : DF) (year : Nat) (shelter_type : String) :
    List HRec :=
  df.rows.filterMap (processRow df.cols year shelter_type)

/-- the twelve canonical output field names, in dict order. -/
def canonicalFields : List String :=
  ["coc_number", "coc_name", "year", "count_type", "total", "under_18",
   "age_18_to_24", "over_24", "individuals", "people_in_families",
   "veterans", "chronically_homeless"]

/-! Section: Fair-market-rents and income-limits transforms -/

/-- Embedding of the population-column fallback in `_load_fmr_year`:
`"pop2020" if "pop2020" in df.columns else "pop2022"`. -/
def pop_col (cols : List String) : String :=
  if cols.contains "pop2020" then "pop2020" else "pop2022"

/-- Model of pandas `Series.astype(int)` applied elementwise: a NaN, None or
non-numeric entry raises (pandas cannot cast it), stopping the conversion. -/
def astypeIntCell : Cell → Except String Int
  | .int n => .ok n
  | .str s =>
      match pyParseInt s with
      | Option.some n => .ok n
      | Option.none => .error "ValueError: invalid literal for int()"
  | .nan => .error "ValueError: cannot convert non-finite values to integer"
  | .none => .error "TypeError: int() argument is None"

/-- Model of `Series.astype(int)` over a whole column. -/
def astypeInt : List Cell → Except String (List Int)
  | [] => .ok []
  | c :: cs =>
    match astypeIntCell c with
    | .error e => .error e
    | .ok n =>
      match astypeInt cs with
      | .error e => .error e
      | .ok ns => .ok (n :: ns)

/-- Model of `Series.astype(str)`. -/
def astypeStr (col : List Cell) : List String := col.map Cell.pyStr

/-- Model of `Series.str.zfill(w)`. -/
def zfillCol (col : List String) (w : Nat) : List String :=
  col.map (fun s => zfill s w)

/-- the `population` column of `_load_fmr_year`:
`df[pop_col].astype(int)`. -/
def fmrPopulation (df : DF) : Except String (List Int) :=
  dfColumn df (pop_col df.cols) >>= astypeInt

/-- the `state_fips` column of `_load_fmr_year`:
`df["state"].astype(str).str.zfill(2)`. -/
def fmrStateFips (df : DF) : Except String (List String) :=
  (dfColumn df "state").map (fun col => zfillCol (astypeStr col) 2)

/-- the `fips` column of `_load_fmr_year`:
`df["fips"].astype(str).str.zfill(9)`. -/
def fmrFips (df : DF) : Except String (List String) :=
  (dfColumn df "fips").map (fun col => zfillCol (astypeStr col) 9)

/-- the `fips` column of the income-limits `run`:
`df["fips"].astype(str).str.zfill(9)`. -/
def ilFips (df : DF) : Except String (List String) :=
  (dfColumn df "fips").map (fun col => zfillCol (astypeStr col) 9)

/-- the `state_fips` column of the income-limits `run`:
`df["state"].astype(str).str.zfill(2)`. -/
def ilStateFips (df : DF) : Except String (List String) :=
  (dfColumn df "state").map (fun col => zfillCol (astypeStr col) 2)

/-- the `county_fips` column of the income-limits `run`:
`df["county"].astype(str).str.zfill(3)`. -/
def ilCountyFips (df : DF) : Except String (List String) :=
  (dfColumn df "county").map (fun col => zfillCol (astypeStr col) 3)

/-- the `median_income` column of the income-limits `run`:
`df["median2024"].astype(int)`. -/
def ilMedianIncome (df : DF) : Except String (List Int) :=
  dfColumn df "median2024" >>= astypeInt

/-! Section: Checkpointed ingestion (`src/nodes/hud_data.py`) -/

/-- the keys of the `DATASETS` registry, in declaration order. -/
def DATASET_KEYS : List String :=
  ["fmr_2024", "fmr_2025", "income_limits_2024", "pit_2024"]

/-- Observable event of one ingestion run: a fetch attempt for a key (with
its outcome: `true` when the get, status check and raw-file save all
succeed), or a checkpoint write carrying the persisted completed set. -/
inductive Event where
  | fetchAttempt (key : String) (ok : Bool)
  | saveCheckpoint (completed : List String)
deriving DecidableEq, Repr

/-- State threaded through the fetch loop of `hud_data.run`: the events so
far and the in-memory completed set. -/
structure IngestState where
  trace : List Event
  completed : List String
deriving DecidableEq, Repr

/-- Body of the fetch loop of `hud_data.run`: try the download; on success
add the key to the completed set and persist the checkpoint at once; on any
error log and continue (the checkpoint is untouched). -/
def ingestStep (ok : String → Bool) (st : IngestState) (key : String) :
    IngestState :=
  if ok key then
    let comp := st.completed ++ [key]
    { trace := st.trace ++ [.fetchAttempt key true, .saveCheckpoint comp],
      completed := comp }
  else
    { trace := st.trace ++ [.fetchAttempt key false], completed := st.completed }

/-- Embedding of `hud_data.run`: compute the pending keys (declared keys not
in the loaded checkpoint) and run the fetch loop over them in order. -/
def ingestRun (completed0 : List String) (ok : String → Bool) : IngestState :=
  let pending := DATASET_KEYS.filter (fun k => !completed0.contains k)
  pending.foldl (ingestStep ok) { trace := [], completed := completed0 }

/-- Keys for which the run attempted a fetch, in order. -/
def fetchedKeys (st : IngestState) : List String :=
  st.trace.filterMap (fun e =>
    match e with
    | .fetchAttempt k _ => Option.some k
    | _ => Option.none)

/-- Every successful fetch attempt is immediately followed by a checkpoint
write whose completed set contains the fetched key. -/
def immediatePersist : List Event → Prop
  | [] => True
  | .fetchAttempt k true :: rest =>
      (match rest with
       | .saveCheckpoint c :: _ => k ∈ c
       | _ => False) ∧ immediatePersist rest
  | _ :: rest => immediatePersist rest

/-! Section: Validator (each transform's `test.py`) -/

/-- Declarative check configuration handed to `subsets_utils.validate`. -/
structure VConfig where
  columns : List (String × String)
  notNull : List String
  uniqueKey : List String
  minRows : Nat

/-- Does a cell agree with a declared semantic type?  A null cell is allowed
by the schema check (nullability is the separate not-null check). -/
def cellTypeOk (ty : String) : Cell → Bool
  | .none => true
  | .str _ => ty = "string"
  | .int _ => ty = "int"
  | .nan => false

/-- the cells of one column of a table, null where a row lacks the key. -/
def colCells (t : DF) (c : String) : List Cell :=
  t.rows.map (fun r => rowGet r c Cell.none)

/-- Modelled from the spec: `subsets_utils.validate` (the library itself is
not part of this repository).  Per spec section 4.3: every declared column
exists with the declared semantic type, declared required fields have no
null in any record, the declared key tuple has no duplicate across the whole
dataset, and the record count meets the declared minimum. -/
def validate (t : DF) (cfg : VConfig) : Prop :=
  (∀ p ∈ cfg.columns, p.1 ∈ t.cols ∧
    ∀ r ∈ t.rows, cellTypeOk p.2 (rowGet r p.1 Cell.none) = true) ∧
  (∀ c ∈ cfg.notNull, ∀ r ∈ t.rows, rowGet r c Cell.none ≠ Cell.none) ∧
  (t.rows.map (fun r => cfg.uniqueKey.map (fun c => rowGet r c Cell.none))).Nodup ∧
  cfg.minRows ≤ t.rows.length

instance (t : DF) (cfg : VConfig) : Decidable (validate t cfg) := by
  unfold validate; infer_instance

/-- Modelled from the spec: the year predicate behind
`subsets_utils.testing.assert_valid_year` — a 4-digit string in a historical
range (1900–2100 here). -/
def yearOk : Cell → Bool
  | .str s => s.length = 4 && s.data.all Char.isDigit &&
      decide (1900 ≤ digitsVal s.data) && decide (digitsVal s.data ≤ 2100)
  | _ => false

/-- Modelled from the spec: the per-cell predicate behind
`assert_positive` — a strictly positive integer. -/
def positiveCell : Cell → Bool
  | .int n => decide (0 < n)
  | _ => false

/-- Elementwise pandas `<=` between two integer cells, as in the income-tier
hierarchy check; any non-integer comparison is false. -/
def cellLeB : Cell → Cell → Bool
  | .int m, .int n => decide (m ≤ n)
  | _, _ => false

/-- Sample shape check on one CoC identifier, from the homeless-counts
`test`: at least six characters and containing a dash. -/
def cocShapeOk : Cell → Bool
  | .str s => decide (6 ≤ s.length) && s.data.contains '-'
  | _ => false

/-- the `validate` configuration of the income-limits `test`. -/
def ilConfig : VConfig :=
  { columns := [("fips", "string"), ("state_code", "string"),
      ("state_fips", "string"), ("state_name", "string"),
      ("hud_area_code", "string"), ("hud_area_name", "string"),
      ("county_fips", "string"), ("county_name", "string"),
      ("metro", "int"), ("fiscal_year", "string"), ("median_income", "int"),
      ("eli_1", "int"), ("eli_4", "int"), ("vli_1", "int"), ("vli_4", "int"),
      ("li_1", "int"), ("li_4", "int")],
    notNull := ["fips", "state_code", "county_name", "fiscal_year",
      "median_income"],
    uniqueKey := ["fips"],
    minRows := 4500 }

/-- Embedding of `transforms/income_limits/test.py`: the `validate` call,
the fiscal-year checks, the positivity checks, the eli/vli/li hierarchy
check on the 4-person columns, the metro domain check, and the state-code
coverage check, all of which must pass. -/
def incomeLimitsTest (t : DF) : Prop :=
  validate t ilConfig ∧
  (∀ v ∈ colCells t "fiscal_year", yearOk v = true) ∧
  (colCells t "fiscal_year" ≠ [] ∧
    ∀ v ∈ colCells t "fiscal_year", v = Cell.str "2024") ∧
  (∀ v ∈ colCells t "median_income", positiveCell v = true) ∧
  (∀ v ∈ colCells t "eli_4", positiveCell v = true) ∧
  (∀ v ∈ colCells t "vli_4", positiveCell v = true) ∧
  (∀ v ∈ colCells t "li_4", positiveCell v = true) ∧
  (∀ r ∈ t.rows,
    cellLeB (rowGet r "eli_4" Cell.none) (rowGet r "vli_4" Cell.none) = true) ∧
  (∀ r ∈ t.rows,
    cellLeB (rowGet r "vli_4" Cell.none) (rowGet r "li_4" Cell.none) = true) ∧
  (∀ v ∈ colCells t "metro", v ∈ [Cell.int 0, Cell.int 1]) ∧
  50 ≤ (colCells t "state_code").dedup.length

instance (t : DF) : Decidable (incomeLimitsTest t) := by
  unfold incomeLimitsTest; infer_instance

/-- the `validate` configuration of the fair-market-rents `test`. -/
def fmrConfig : VConfig :=
  { columns := [("state_code", "string"), ("state_fips", "string"),
      ("county_name", "string"), ("fips", "string"),
      ("hud_area_code", "string"), ("hud_area_name", "string"),
      ("metro", "int"), ("fiscal_year", "string"), ("population", "int"),
      ("fmr_0br", "int"), ("fmr_1br", "int"), ("fmr_2br", "int"),
      ("fmr_3br", "int"), ("fmr_4br", "int")],
    notNull := ["state_code", "county_name", "fips", "fiscal_year",
      "fmr_2br"],
    uniqueKey := ["fips", "fiscal_year"],
    minRows := 9000 }

/-- Embedding of `transforms/fair_market_rents/test.py`. -/
def fmrTest (t : DF) : Prop :=
  validate t fmrConfig ∧
  (∀ v ∈ colCells t "fiscal_year", yearOk v = true) ∧
  ((∀ v ∈ colCells t "fiscal_year",
      v = Cell.str "2024" ∨ v = Cell.str "2025") ∧
    Cell.str "2024" ∈ colCells t "fiscal_year" ∧
    Cell.str "2025" ∈ colCells t "fiscal_year") ∧
  (∀ v ∈ colCells t "fmr_0br", positiveCell v = true) ∧
  (∀ v ∈ colCells t "fmr_1br", positiveCell v = true) ∧
  (∀ v ∈ colCells t "fmr_2br", positiveCell v = true) ∧
  (∀ v ∈ colCells t "fmr_3br", positiveCell v = true) ∧
  (∀ v ∈ colCells t "fmr_4br", positiveCell v = true) ∧
  (∀ v ∈ colCells t "metro", v ∈ [Cell.int 0, Cell.int 1]) ∧
  50 ≤ (colCells t "state_code").dedup.length

instance (t : DF) : Decidable (fmrTest t) := by
  unfold fmrTest; infer_instance

/-- the `validate` configuration of the homeless-counts `test`. -/
def hcConfig : VConfig :=
  { columns := [("coc_number", "string"), ("coc_name", "string"),
      ("year", "string"), ("count_type", "string"), ("total", "int")],
    notNull := ["coc_number", "year", "count_type", "total"],
    uniqueKey := ["coc_number", "year", "count_type"],
    minRows := 10000 }

/-- Embedding of `transforms/homeless_counts/test.py`. -/
def homelessTest (t : DF) : Prop :=
  validate t hcConfig ∧
  (∀ v ∈ colCells t "year", yearOk v = true) ∧
  Cell.str "2024" ∈ colCells t "year" ∧
  (Cell.str "2007" ∈ colCells t "year" ∨ Cell.str "2008" ∈ colCells t "year") ∧
  (∀ v ∈ colCells t "count_type",
    v ∈ [Cell.str "Overall", Cell.str "Sheltered", Cell.str "Unsheltered"]) ∧
  (∀ v ∈ (colCells t "coc_number").take 10, cocShapeOk v = true) ∧
  300 ≤ (colCells t "coc_number").dedup.length

instance (t : DF) : Decidable (homelessTest t) := by
  unfold homelessTest; infer_instance

/-! Section: Transform run traces (validation gates publication) -/

/-- Observable step of a transform `run` after the table is built: the
`test(table)` call, the `sync_data` upload, the `sync_metadata` upload. -/
inductive RunAct where
  | validateData
  | syncData
  | syncMetadata
deriving DecidableEq, Repr

/-- Tail of `fair_market_rents.run` on the finished table: `test(table)`
runs first; an assertion failure propagates, so the sync calls happen only
when the test passes.  The boolean is true when the run completed. -/
def fmrRun (t : DF) : List RunAct × Bool :=
  if fmrTest t then ([.validateData, .syncData, .syncMetadata], true)
  else ([.validateData], false)

/-- Tail of `income_limits.run` on the finished table. -/
def ilRun (t : DF) : List RunAct × Bool :=
  if incomeLimitsTest t then ([.validateData, .syncData, .syncMetadata], true)
  else ([.validateData], false)

/-- Tail of `homeless_counts.run` on the finished table. -/
def hcRun (t : DF) : List RunAct × Bool :=
  if homelessTest t then ([.validateData, .syncData, .syncMetadata], true)
  else ([.validateData], false)

/-! Section: Claim C7: pattern-based column resolution -/

/-- Definition following the claim's words, for comparison with the code:
scan the source column names for the first one (in column order) containing
any pattern from the list. -/
def get_col_claim (cols patterns : List String) : Option String :=
  cols.find? (fun c => patterns.any (fun p => containsCI p c))

lemma get_col_none_iff (cols ps : List String) :
    get_col cols ps = Option.none ↔
      ∀ p ∈ ps, ∀ c ∈ cols, containsCI p c = false := by
  induction ps with
  | nil => simp [get_col]
  | cons p ps ih =>
    constructor
    · intro h q hq c hc
      cases hf : cols.filter (fun c => containsCI p c) with
      | nil =>
        have hrest : get_col cols ps = Option.none := by
          simpa [get_col, hf] using h
        rcases List.mem_cons.mp hq with rfl | hq'
        · have := List.filter_eq_nil_iff.mp hf c hc
          simpa using this
        · exact ih.mp hrest q hq' c hc
      | cons c0 cs =>
        simp [get_col, hf] at h
    · intro h
      have hf : cols.filter (fun c => containsCI p c) = [] :=
        List.filter_eq_nil_iff.mpr (fun c hc => by
          simp [h p (List.mem_cons_self p ps) c hc])
      simp [get_col, hf]
      exact ih.mpr (fun q hq c hc => h q (List.mem_cons_of_mem p hq) c hc)

lemma get_col_some (cols ps : List String) (c : String)
    (h : get_col cols ps = Option.some c) :
    c ∈ cols ∧ ∃ p ∈ ps, containsCI p c = true := by
  induction ps with
  | nil => simp [get_col] at h
  | cons p ps ih =>
    cases hf : cols.filter (fun x => containsCI p x) with
    | nil =>
      have hrest : get_col cols ps = Option.some c := by
        simpa [get_col, hf] using h
      obtain ⟨hc, q, hq, hq2⟩ := ih hrest
      exact ⟨hc, q, List.mem_cons_of_mem p hq, hq2⟩
    | cons c0 cs =>
      have hc0 : c = c0 := by
        have := h
        simp [get_col, hf] at this
        exact this.symm
      subst hc0
      have hmem : c ∈ cols.filter (fun x => containsCI p x) := by
        rw [hf]; exact List.mem_cons_self _ _
      have := List.mem_filter.mp hmem
      exact ⟨this.1, p, List.mem_cons_self p ps, this.2⟩

/-- C7: the claim reads resolution as returning the first column (in column
order) containing any pattern; the code iterates patterns first.  On the
frame with columns ["B Col", "A Col"] and patterns ["a col", "b col"] the
code returns "A Col" while the claim's description yields "B Col". -/
theorem claim_C7_counterexample :
    get_col ["B Col", "A Col"] ["a col", "b col"] = Option.some "A Col" ∧
    get_col_claim ["B Col", "A Col"] ["a col", "b col"] = Option.some "B Col" ∧
    get_col ["B Col", "A Col"] ["a col", "b col"] ≠
      get_col_claim ["B Col", "A Col"] ["a col", "b col"] := by
  refine ⟨by decide, by decide, by decide⟩

/-- C7 (amended): `_get_col` iterates the pattern list in order; the first
pattern with any case-insensitive substring match selects the first matching
column in column order; when no column name contains any pattern the
resolution yields none, and any resolved column is a real column matched by
some pattern. -/
theorem claim_C7_amended :
    (∀ cols ps : List String, get_col cols ps = Option.none ↔
      ∀ p ∈ ps, ∀ c ∈ cols, containsCI p c = false) ∧
    (∀ (cols ps : List String) (c : String), get_col cols ps = Option.some c →
      c ∈ cols ∧ ∃ p ∈ ps, containsCI p c = true) ∧
    (∀ (cols : List String) (p : String) (ps : List String),
      (∃ c ∈ cols, containsCI p c = true) →
      get_col cols (p :: ps) = (cols.filter (fun c => containsCI p c)).head?) := by
  refine ⟨get_col_none_iff, get_col_some, ?_⟩
  intro cols p ps h
  cases hf : cols.filter (fun c => containsCI p c) with
  | nil =>
    obtain ⟨c, hc, hcc⟩ := h
    have := List.filter_eq_nil_iff.mp hf c hc
    simp [hcc] at this
  | cons c0 cs => simp [get_col, hf]

/-- C7 witness: the amended characterization applied at a concrete frame. -/
theorem claim_C7_witness :
    get_col ["CoC Number"] ["Sheltered Homeless", "Sheltered"] = Option.none ∧
    "Overall Homeless 2024" ∈ ["CoC Number", "Overall Homeless 2024"] ∧
    get_col ["CoC Number", "Overall Homeless 2024"] ["Overall Homeless"] =
      (["CoC Number", "Overall Homeless 2024"].filter
        (fun c => containsCI "Overall Homeless" c)).head? := by
  refine ⟨?_, by decide, ?_⟩
  · exact claim_C7_amended.1 ["CoC Number"] ["Sheltered Homeless", "Sheltered"]
      |>.mpr (by decide)
  · exact claim_C7_amended.2.2 ["CoC Number", "Overall Homeless 2024"]
      "Overall Homeless" [] ⟨"Overall Homeless 2024", by decide, by decide⟩

/-! Section: Claim C8: malformed-identifier rows -/

/-- C8: counterexample.  The claim quantifies over every dataset, but only
the homeless-counts transform skips malformed-identifier rows.  In the
rents and income-limits transforms a row with an empty fips cell is not
skipped: the `astype(str).str.zfill(9)` pipeline emits it with the
identifier "000000000" — one output entry for the one input row. -/
theorem claim_C8_counterexample :
    ilFips ⟨["fips"], [[("fips", Cell.str "")]]⟩ = .ok ["000000000"] ∧
    fmrFips ⟨["fips"], [[("fips", Cell.str "")]]⟩ = .ok ["000000000"] ∧
    (Cell.str "").truthy = false ∧ (Cell.str "").isna = false :=
  ⟨rfl, rfl, rfl, rfl⟩

/-- C8 (amended): only in the homeless-counts transform is a row whose
identifier cell is falsy (empty, or missing, which defaults to "") or NaN
skipped entirely, with no record emitted; the rents and income-limits
transforms skip no rows — their fips pipeline emits one zero-padded string
per source row, so an empty identifier cell is emitted as "000000000". -/
theorem claim_C8_amended (cols : List String) (year : Nat) (st : String)
    (r : Row)
    (h : (rowGet r "CoC Number" (Cell.str "")).truthy = false ∨
         (rowGet r "CoC Number" (Cell.str "")).isna = true) :
    processRow cols year st r = Option.none ∧
    extract_shelter_type ⟨cols, [r]⟩ year st = [] ∧
    (∀ df : DF, df.cols.contains "fips" = true →
      ilFips df = .ok (df.rows.map
        (fun r2 => zfill (rowGet r2 "fips" Cell.none).pyStr 9))) ∧
    (∀ df : DF, df.cols.contains "fips" = true →
      fmrFips df = .ok (df.rows.map
        (fun r2 => zfill (rowGet r2 "fips" Cell.none).pyStr 9))) ∧
    zfill (Cell.str "").pyStr 9 = "000000000" := by
  have h1 : processRow cols year st r = Option.none := by
    unfold processRow
    rcases h with h | h <;> simp [h]
  have hfips : ∀ df : DF, df.cols.contains "fips" = true →
      (dfColumn df "fips").map (fun col => zfillCol (astypeStr col) 9) =
        .ok (df.rows.map
          (fun r2 => zfill (rowGet r2 "fips" Cell.none).pyStr 9)) := by
    intro df hdf
    rw [show dfColumn df "fips" =
        .ok (df.rows.map (fun r2 => rowGet r2 "fips" Cell.none)) from by
      unfold dfColumn
      rw [hdf]
      rfl]
    show Except.ok (zfillCol (astypeStr
      (df.rows.map (fun r2 => rowGet r2 "fips" Cell.none))) 9) = _
    rw [astypeStr, zfillCol, List.map_map, List.map_map]
    rfl
  refine ⟨h1, by simp [extract_shelter_type, h1], ?_, ?_, by decide⟩
  · intro df hdf
    exact hfips df hdf
  · intro df hdf
    exact hfips df hdf

/-- C8 witness: the amended statement applied to a row with an empty CoC
number (dropped by the homeless-counts transform) and to a one-row
income-limits frame whose fips cell is emitted zero-padded. -/
theorem claim_C8_witness :
    processRow ["CoC Number"] 2020 "Overall" [("CoC Number", Cell.str "")] =
      Option.none ∧
    extract_shelter_type ⟨["CoC Number"], [[("CoC Number", Cell.str "")]]⟩
      2020 "Overall" = [] ∧
    ilFips ⟨["fips"], [[("fips", Cell.int 7)]]⟩ = .ok ["000000007"] := by
  have h := claim_C8_amended ["CoC Number"] 2020 "Overall"
    [("CoC Number", Cell.str "")] (Or.inl (by decide))
  refine ⟨h.1, h.2.1, ?_⟩
  rw [h.2.2.1 ⟨["fips"], [[("fips", Cell.int 7)]]⟩ rfl]
  rfl

/-! Section: Claim C9: zero-padded identifier codes -/

/-- C9: fixed-width codes are zero-padded strings: a state/region code 6
becomes "06" under the 2-digit pad, the composite code "60001" becomes
"000060001" under the 9-digit pad, the county code is padded to 3 digits,
and in general `zfill` output never falls short of the declared width. -/
theorem claim_C9 :
    fmrStateFips ⟨["state"], [[("state", Cell.int 6)]]⟩ = .ok ["06"] ∧
    ilStateFips ⟨["state"], [[("state", Cell.str "6")]]⟩ = .ok ["06"] ∧
    ilFips ⟨["fips"], [[("fips", Cell.str "60001")]]⟩ = .ok ["000060001"] ∧
    fmrFips ⟨["fips"], [[("fips", Cell.int 60001)]]⟩ = .ok ["000060001"] ∧
    ilCountyFips ⟨["county"], [[("county", Cell.int 1)]]⟩ = .ok ["001"] ∧
    (∀ (s : String) (w : Nat), w ≤ (zfill s w).length) := by
  refine ⟨rfl, rfl, rfl, rfl, rfl, ?_⟩
  intro s w
  unfold zfill
  by_cases h : w ≤ s.length
  · simp only [if_pos h]
    exact h
  · have hlen : s.length = s.data.length := rfl
    rw [if_neg h]
    rcases hd : s.data with _ | ⟨c, rest⟩
    · rw [hd] at hlen
      simp only [hd, List.length_nil] at hlen ⊢
      show w ≤ (String.mk (List.replicate (w - s.length) '0')).length
      show w ≤ (List.replicate (w - s.length) '0').length
      simp only [List.length_replicate]
      omega
    · have hsl : s.length = rest.length + 1 := by
        rw [hlen, hd]; simp
      simp only [hd]
      by_cases hc : c = '+' ∨ c = '-'
      · rw [if_pos hc]
        show w ≤ (c :: (List.replicate (w - s.length) '0' ++ rest)).length
        simp only [List.length_cons, List.length_append, List.length_replicate]
        omega
      · rw [if_neg hc]
        show w ≤ (List.replicate (w - s.length) '0' ++ (c :: rest)).length
        simp only [List.length_cons, List.length_append, List.length_replicate]
        omega

/-! Section: Claim C3: numeric coercion on empty / not-a-number values -/

lemma astypeInt_mem_nan (col : List Cell) (h : Cell.nan ∈ col) :
    ∀ ns, astypeInt col ≠ .ok ns := by
  induction col with
  | nil => cases h
  | cons c cs ih =>
    intro ns
    rcases List.mem_cons.mp h with rfl | h'
    · simp [astypeInt, astypeIntCell]
    · cases hc : astypeIntCell c with
      | error e => simp [astypeInt, hc]
      | ok n =>
        cases hcs : astypeInt cs with
        | error e => simp [astypeInt, hc, hcs]
        | ok ns' => exact absurd hcs (ih h' ns')

/-- C3: counterexample.  The claim quantifies over every dataset transform,
but only the homeless-counts transform coerces through `_safe_int`; the
income-limits and rents transforms use `Series.astype(int)`, which raises on
a NaN or empty cell instead of producing null. -/
theorem claim_C3_counterexample :
    ilMedianIncome ⟨["median2024"], [[("median2024", Cell.nan)]]⟩ =
      Except.error "ValueError: cannot convert non-finite values to integer" ∧
    fmrPopulation ⟨["pop2022"], [[("pop2022", Cell.str "")]]⟩ =
      Except.error "ValueError: invalid literal for int()" :=
  ⟨rfl, rfl⟩

/-- C3 (amended): in the homeless-counts transform `_safe_int` maps every
NaN/None and every non-numeric string (the empty string included) to null
and never raises; in the rents and income-limits transforms the
`astype(int)` coercion raises whenever the column contains a NaN. -/
theorem claim_C3_amended :
    (∀ c : Cell, c.isna = true → safe_int c = Option.none) ∧
    (∀ s : String, pyParseInt s = Option.none →
      safe_int (Cell.str s) = Option.none) ∧
    safe_int (Cell.str "") = Option.none ∧
    (∀ col : List Cell, Cell.nan ∈ col → ∀ ns, astypeInt col ≠ .ok ns) := by
  refine ⟨?_, ?_, by decide, astypeInt_mem_nan⟩
  · intro c h
    simp [safe_int, h]
  · intro s h
    simp [safe_int, Cell.isna, pyInt, h]

/-- C3 witness: the amended statement applied at NaN, at a non-numeric
string, and at a NaN-carrying column. -/
theorem claim_C3_witness :
    safe_int Cell.nan = Option.none ∧
    safe_int (Cell.str "N/A") = Option.none ∧
    astypeInt [Cell.int 3, Cell.nan] ≠ .ok [3] := by
  refine ⟨?_, ?_, ?_⟩
  · exact claim_C3_amended.1 Cell.nan (by decide)
  · exact claim_C3_amended.2.1 "N/A" (by decide)
  · exact claim_C3_amended.2.2.2 [Cell.int 3, Cell.nan] (by decide) [3]

/-! Section: Claim C1: column-resolution fallback and schema-drift nulls -/

/-- a sheet with a valid CoC identifier but none of the candidate metric
columns. -/
def c1df : DF := ⟨["CoC Number", "CoC Name"],
  [[("CoC Number", Cell.str "AK-500"), ("CoC Name", Cell.str "Alaska")]]⟩

/-- C1: counterexample.  On a sheet where every candidate name for the total
column is absent, the total resolves to null, and the final
`if record["total"] is not None` filter of `_extract_shelter_type` then
drops the row even though its identifier is present — the claim's "each row
is still emitted" fails for the total field. -/
theorem claim_C1_counterexample :
    total_col c1df.cols (pfxOf "Overall") = Option.none ∧
    under_18_col c1df.cols (pfxOf "Overall") = Option.none ∧
    (rowGet [("CoC Number", Cell.str "AK-500"), ("CoC Name", Cell.str "Alaska")]
      "CoC Number" (Cell.str "")).truthy = true ∧
    (rowGet [("CoC Number", Cell.str "AK-500"), ("CoC Name", Cell.str "Alaska")]
      "CoC Number" (Cell.str "")).isna = false ∧
    extract_shelter_type c1df 2020 "Overall" = [] := by
  decide

/-- C1 (amended): the alternate-name fallback holds (a frame without
"pop2020" resolves the population column to "pop2022"), and a field whose
candidate columns are all absent resolves to null for every emitted record;
but a row is emitted only when its identifier is present AND its total
resolved non-null — when the total column is unresolvable every row of that
sheet is dropped rather than emitted with a null total. -/
theorem claim_C1_amended :
    (∀ cols : List String, cols.contains "pop2020" = false →
      pop_col cols = "pop2022") ∧
    (∀ (cols : List String) (year : Nat) (st : String) (r : Row),
      total_col cols (pfxOf st) = Option.none →
      processRow cols year st r = Option.none) ∧
    (∀ (cols : List String) (year : Nat) (st : String) (r : Row) (rec : HRec),
      processRow cols year st r = Option.some rec →
      (∃ n, List.lookup "total" rec = Option.some (Val.vi (Option.some n))) ∧
      (under_18_col cols (pfxOf st) = Option.none →
        List.lookup "under_18" rec = Option.some (Val.vi Option.none)) ∧
      (age_18_24_col cols (pfxOf st) = Option.none →
        List.lookup "age_18_to_24" rec = Option.some (Val.vi Option.none)) ∧
      (over_24_col cols (pfxOf st) = Option.none →
        List.lookup "over_24" rec = Option.some (Val.vi Option.none)) ∧
      (individuals_col cols (pfxOf st) = Option.none →
        List.lookup "individuals" rec = Option.some (Val.vi Option.none)) ∧
      (families_col cols (pfxOf st) = Option.none →
        List.lookup "people_in_families" rec = Option.some (Val.vi Option.none)) ∧
      (veterans_col cols (pfxOf st) = Option.none →
        List.lookup "veterans" rec = Option.some (Val.vi Option.none)) ∧
      (chronic_col cols (pfxOf st) = Option.none →
        List.lookup "chronically_homeless" rec = Option.some (Val.vi Option.none))) := by
  refine ⟨?_, ?_, ?_⟩
  · intro cols h
    simp only [pop_col, h]
    rfl
  · intro cols year st r h
    simp [processRow, h, metricVal]
  · intro cols year st r rec h
    simp only [processRow] at h
    split at h
    · exact absurd h (by simp)
    · split at h
      case isTrue htot =>
        rw [Option.some.injEq] at h
        subst h
        obtain ⟨n, hn⟩ := Option.isSome_iff_exists.mp htot
        refine ⟨⟨n, ?_⟩, ?_, ?_, ?_, ?_, ?_, ?_, ?_⟩
        · show Option.some (Val.vi (metricVal r (total_col cols (pfxOf st)))) =
            Option.some (Val.vi (Option.some n))
          rw [hn]
        all_goals
          intro hcol
          first
          | (show Option.some (Val.vi (metricVal r (under_18_col cols (pfxOf st)))) =
              Option.some (Val.vi Option.none); rw [hcol]; rfl)
          | (show Option.some (Val.vi (metricVal r (age_18_24_col cols (pfxOf st)))) =
              Option.some (Val.vi Option.none); rw [hcol]; rfl)
          | (show Option.some (Val.vi (metricVal r (over_24_col cols (pfxOf st)))) =
              Option.some (Val.vi Option.none); rw [hcol]; rfl)
          | (show Option.some (Val.vi (metricVal r (individuals_col cols (pfxOf st)))) =
              Option.some (Val.vi Option.none); rw [hcol]; rfl)
          | (show Option.some (Val.vi (metricVal r (families_col cols (pfxOf st)))) =
              Option.some (Val.vi Option.none); rw [hcol]; rfl)
          | (show Option.some (Val.vi (metricVal r (veterans_col cols (pfxOf st)))) =
              Option.some (Val.vi Option.none); rw [hcol]; rfl)
          | (show Option.some (Val.vi (metricVal r (chronic_col cols (pfxOf st)))) =
              Option.some (Val.vi Option.none); rw [hcol]; rfl)
      case isFalse =>
        exact absurd h (by simp)

/-- columns of the C1 witness sheet: identifier plus a 2024-vintage overall
total column; every other metric's candidates are absent. -/
def c1wCols : List String := ["CoC Number", "Overall Homeless 2024"]

/-- the single data row of the C1 witness sheet. -/
def c1wRow : Row :=
  [("CoC Number", Cell.str "AK-500"), ("Overall Homeless 2024", Cell.int 10)]

/-- the record `_extract_shelter_type` emits for the C1 witness sheet. -/
def c1wRec : HRec :=
  [("coc_number", .vs "AK-500"), ("coc_name", .vs ""), ("year", .vs "2024"),
   ("count_type", .vs "Overall"), ("total", .vi (Option.some 10)),
   ("under_18", .vi Option.none), ("age_18_to_24", .vi Option.none),
   ("over_24", .vi Option.none), ("individuals", .vi Option.none),
   ("people_in_families", .vi Option.none), ("veterans", .vi Option.none),
   ("chronically_homeless", .vi Option.none)]

/-- C1 witness: the amended statement applied at concrete sheets. -/
theorem claim_C1_witness :
    pop_col ["stusps", "pop2022"] = "pop2022" ∧
    processRow ["CoC Number", "CoC Name"] 2007 "Sheltered"
      [("CoC Number", Cell.str "AK-500")] = Option.none ∧
    List.lookup "veterans" c1wRec = Option.some (Val.vi Option.none) ∧
    (∃ n, List.lookup "total" c1wRec = Option.some (Val.vi (Option.some n))) := by
  refine ⟨claim_C1_amended.1 _ (by decide),
    claim_C1_amended.2.1 _ 2007 _ _ (by decide), ?_, ?_⟩
  · exact (claim_C1_amended.2.2 c1wCols 2024 "Overall" c1wRow c1wRec
      (by decide)).2.2.2.2.2.2.1 (by decide)
  · exact (claim_C1_amended.2.2 c1wCols 2024 "Overall" c1wRow c1wRec
      (by decide)).1

/-! Section: Claim C10: coc_name never null; all twelve canonical keys present -/

/-- C10: every record emitted by `_extract_shelter_type` carries exactly the
twelve canonical field names as keys, its coc_name is always a string value
(never null), and when the source CoC Name cell is falsy (missing defaults
to "") or NaN the record carries the empty string. -/
theorem claim_C10 (cols : List String) (year : Nat) (st : String) (r : Row)
    (rec : HRec) (h : processRow cols year st r = Option.some rec) :
    rec.map Prod.fst = canonicalFields ∧
    (∃ s, List.lookup "coc_name" rec = Option.some (Val.vs s)) ∧
    (((rowGet r "CoC Name" (Cell.str "")).truthy = false ∨
      (rowGet r "CoC Name" (Cell.str "")).isna = true) →
      List.lookup "coc_name" rec = Option.some (Val.vs "")) := by
  simp only [processRow] at h
  split at h
  · exact absurd h (by simp)
  · split at h
    case isTrue htot =>
      rw [Option.some.injEq] at h
      subst h
      refine ⟨rfl, ⟨_, rfl⟩, ?_⟩
      intro hc
      show Option.some (Val.vs (if (rowGet r "CoC Name" (Cell.str "")).truthy &&
        !(rowGet r "CoC Name" (Cell.str "")).isna then
          pyStrip (rowGet r "CoC Name" (Cell.str "")).pyStr else "")) =
        Option.some (Val.vs "")
      rcases hc with hc | hc <;> rw [hc] <;> simp
    case isFalse =>
      exact absurd h (by simp)

/-- C10 witness: the record of a row whose CoC Name cell is NaN. -/
theorem claim_C10_witness :
    (processRow ["CoC Number", "CoC Name", "Sheltered Total Homeless 2012"]
        2012 "Sheltered"
        [("CoC Number", Cell.str "CA-600"), ("CoC Name", Cell.nan),
         ("Sheltered Total Homeless 2012", Cell.int 25)]).isSome = true ∧
    ((processRow ["CoC Number", "CoC Name", "Sheltered Total Homeless 2012"]
        2012 "Sheltered"
        [("CoC Number", Cell.str "CA-600"), ("CoC Name", Cell.nan),
         ("Sheltered Total Homeless 2012", Cell.int 25)]).getD []).map
      Prod.fst = canonicalFields ∧
    List.lookup "coc_name"
      ((processRow ["CoC Number", "CoC Name", "Sheltered Total Homeless 2012"]
        2012 "Sheltered"
        [("CoC Number", Cell.str "CA-600"), ("CoC Name", Cell.nan),
         ("Sheltered Total Homeless 2012", Cell.int 25)]).getD []) =
      Option.some (Val.vs "") := by
  have h := claim_C10 ["CoC Number", "CoC Name", "Sheltered Total Homeless 2012"]
    2012 "Sheltered"
    [("CoC Number", Cell.str "CA-600"), ("CoC Name", Cell.nan),
     ("Sheltered Total Homeless 2012", Cell.int 25)]
    ((processRow ["CoC Number", "CoC Name", "Sheltered Total Homeless 2012"]
        2012 "Sheltered"
        [("CoC Number", Cell.str "CA-600"), ("CoC Name", Cell.nan),
         ("Sheltered Total Homeless 2012", Cell.int 25)]).getD []) (by decide)
  exact ⟨by decide, h.1, h.2.2 (Or.inr (by decide))⟩

/-! Section: Claims C4 and C5: checkpointed ingestion -/

/-- Trace the fetch loop produces from a starting completed set over a key
list (specification function used in the induction proofs). -/
def traceFrom (ok : String → Bool) (comp : List String) :
    List String → List Event
  | [] => []
  | k :: ks =>
    if ok k then
      .fetchAttempt k true :: .saveCheckpoint (comp ++ [k]) ::
        traceFrom ok (comp ++ [k]) ks
    else
      .fetchAttempt k false :: traceFrom ok comp ks

lemma ingestStep_pos (ok : String → Bool) (st : IngestState) (k : String)
    (hk : ok k = true) :
    ingestStep ok st k =
      ⟨st.trace ++ [Event.fetchAttempt k true,
        Event.saveCheckpoint (st.completed ++ [k])], st.completed ++ [k]⟩ := by
  simp [ingestStep, hk]

lemma ingestStep_neg (ok : String → Bool) (st : IngestState) (k : String)
    (hk : ok k = false) :
    ingestStep ok st k =
      ⟨st.trace ++ [Event.fetchAttempt k false], st.completed⟩ := by
  simp [ingestStep, hk]

lemma foldl_ingest (ok : String → Bool) (keys : List String)
    (st : IngestState) :
    (keys.foldl (ingestStep ok) st).trace =
      st.trace ++ traceFrom ok st.completed keys ∧
    (keys.foldl (ingestStep ok) st).completed =
      st.completed ++ keys.filter ok := by
  induction keys generalizing st with
  | nil => simp [traceFrom]
  | cons k ks ih =>
    simp only [List.foldl_cons]
    by_cases hk : ok k
    · rw [ingestStep_pos ok st k hk]
      refine ⟨?_, ?_⟩
      · rw [(ih _).1]
        simp [traceFrom, hk, List.append_assoc]
      · rw [(ih _).2]
        simp [traceFrom, hk, List.filter_cons]
    · rw [ingestStep_neg ok st k (by simpa using hk)]
      refine ⟨?_, ?_⟩
      · rw [(ih _).1]
        simp [traceFrom, hk, List.append_assoc]
      · rw [(ih _).2]
        simp [traceFrom, hk, List.filter_cons]

lemma traceFrom_fetched (ok : String → Bool) (comp keys : List String) :
    (traceFrom ok comp keys).filterMap (fun e =>
      match e with
      | .fetchAttempt k _ => Option.some k
      | _ => Option.none) = keys := by
  induction keys generalizing comp with
  | nil => simp [traceFrom]
  | cons k ks ih =>
    by_cases hk : ok k <;> simp [traceFrom, hk, ih]

lemma traceFrom_persist (ok : String → Bool) (comp keys : List String) :
    immediatePersist (traceFrom ok comp keys) := by
  induction keys generalizing comp with
  | nil => simp [immediatePersist, traceFrom]
  | cons k ks ih =>
    by_cases hk : ok k
    · simp only [traceFrom, hk, if_pos]
      refine ⟨by simp, ?_⟩
      show immediatePersist (Event.saveCheckpoint (comp ++ [k]) ::
        traceFrom ok (comp ++ [k]) ks)
      simpa [immediatePersist] using ih (comp ++ [k])
    · simp only [traceFrom, hk, if_neg]
      simpa [immediatePersist] using ih comp

lemma traceFrom_saves (ok : String → Bool) (comp keys : List String)
    (c : List String) (h : Event.saveCheckpoint c ∈ traceFrom ok comp keys) :
    ∀ x ∈ c, x ∈ comp ∨ (x ∈ keys ∧ ok x = true) := by
  induction keys generalizing comp with
  | nil => simp [traceFrom] at h
  | cons k ks ih =>
    by_cases hk : ok k
    · simp only [traceFrom, hk, if_pos, List.mem_cons] at h
      rcases h with h | h | h
      · simp at h
      · intro x hx
        rw [Event.saveCheckpoint.injEq] at h
        subst h
        rcases List.mem_append.mp hx with hx | hx
        · exact Or.inl hx
        · simp only [List.mem_singleton] at hx
          exact Or.inr ⟨by simp [hx], by rw [hx]; exact hk⟩
      · intro x hx
        rcases ih (comp ++ [k]) h x hx with hc | hc
        · rcases List.mem_append.mp hc with hc | hc
          · exact Or.inl hc
          · simp only [List.mem_singleton] at hc
            exact Or.inr ⟨by simp [hc], by rw [hc]; exact hk⟩
        · exact Or.inr ⟨List.mem_cons_of_mem _ hc.1, hc.2⟩
    · simp only [traceFrom, hk, Bool.false_eq_true, if_false] at h
      rw [List.mem_cons] at h
      rcases h with h | h
      · simp at h
      · intro x hx
        rcases ih comp h x hx with hc | hc
        · exact Or.inl hc
        · exact Or.inr ⟨List.mem_cons_of_mem _ hc.1, hc.2⟩

/-- C4: an ingestion run attempts to fetch exactly the declared keys not in
the checkpoint's completed set (so a checkpoint containing every key yields
zero fetch attempts), every successful fetch is immediately followed by a
checkpoint write containing that key, and a successfully fetched pending key
ends up in the completed set. -/
theorem claim_C4 (completed0 : List String) (ok : String → Bool) :
    fetchedKeys (ingestRun completed0 ok) =
      DATASET_KEYS.filter (fun k => !completed0.contains k) ∧
    ((∀ k ∈ DATASET_KEYS, completed0.contains k = true) →
      fetchedKeys (ingestRun completed0 ok) = []) ∧
    immediatePersist (ingestRun completed0 ok).trace ∧
    (∀ k, k ∈ DATASET_KEYS → completed0.contains k = false → ok k = true →
      k ∈ (ingestRun completed0 ok).completed) := by
  have htr := foldl_ingest ok
    (DATASET_KEYS.filter (fun k => !completed0.contains k))
    ⟨[], completed0⟩
  have htrace : (ingestRun completed0 ok).trace =
      traceFrom ok completed0
        (DATASET_KEYS.filter (fun k => !completed0.contains k)) := by
    simpa [ingestRun] using htr.1
  have hcomp : (ingestRun completed0 ok).completed =
      completed0 ++
        (DATASET_KEYS.filter (fun k => !completed0.contains k)).filter ok := by
    simpa [ingestRun] using htr.2
  refine ⟨?_, ?_, ?_, ?_⟩
  · show (ingestRun completed0 ok).trace.filterMap _ = _
    rw [htrace, traceFrom_fetched]
  · intro hall
    show (ingestRun completed0 ok).trace.filterMap _ = _
    rw [htrace, traceFrom_fetched]
    exact List.filter_eq_nil_iff.mpr (fun k hk => by rw [hall k hk]; decide)
  · rw [htrace]
    exact traceFrom_persist ok _ _
  · intro k hk hnc hok
    rw [hcomp]
    refine List.mem_append.mpr (Or.inr ?_)
    refine List.mem_filter.mpr ⟨List.mem_filter.mpr ⟨hk, by rw [hnc]; decide⟩, hok⟩

/-- C4 witness: with three of the four keys checkpointed only the missing
key is fetched; with all four checkpointed nothing is fetched. -/
theorem claim_C4_witness :
    fetchedKeys (ingestRun ["fmr_2024", "fmr_2025", "income_limits_2024"]
      (fun _ => true)) = ["pit_2024"] ∧
    fetchedKeys (ingestRun ["fmr_2024", "fmr_2025", "income_limits_2024",
      "pit_2024"] (fun _ => true)) = [] ∧
    "pit_2024" ∈ (ingestRun ["fmr_2024", "fmr_2025", "income_limits_2024"]
      (fun _ => true)).completed ∧
    immediatePersist (ingestRun ["fmr_2024", "fmr_2025", "income_limits_2024"]
      (fun _ => true)).trace := by
  refine ⟨?_, ?_, ?_, ?_⟩
  · rw [(claim_C4 ["fmr_2024", "fmr_2025", "income_limits_2024"]
      (fun _ => true)).1]
    decide
  · exact (claim_C4 ["fmr_2024", "fmr_2025", "income_limits_2024",
      "pit_2024"] (fun _ => true)).2.1 (by decide)
  · exact (claim_C4 ["fmr_2024", "fmr_2025", "income_limits_2024"]
      (fun _ => true)).2.2.2 "pit_2024" (by decide) (by decide) rfl
  · exact (claim_C4 ["fmr_2024", "fmr_2025", "income_limits_2024"]
      (fun _ => true)).2.2.1

/-- C5: when the fetch-or-save of a pending key fails, the key is neither
added to the final completed set nor contained in any persisted checkpoint
of the run, and the run still attempts every pending key (the failure is
non-fatal). -/
theorem claim_C5 (completed0 : List String) (ok : String → Bool) (k : String)
    (hk : k ∈ DATASET_KEYS) (hnc : completed0.contains k = false)
    (hfail : ok k = false) :
    k ∉ (ingestRun completed0 ok).completed ∧
    (∀ c, Event.saveCheckpoint c ∈ (ingestRun completed0 ok).trace → k ∉ c) ∧
    fetchedKeys (ingestRun completed0 ok) =
      DATASET_KEYS.filter (fun x => !completed0.contains x) := by
  have htr := foldl_ingest ok
    (DATASET_KEYS.filter (fun x => !completed0.contains x))
    ⟨[], completed0⟩
  have htrace : (ingestRun completed0 ok).trace =
      traceFrom ok completed0
        (DATASET_KEYS.filter (fun x => !completed0.contains x)) := by
    simpa [ingestRun] using htr.1
  have hcomp : (ingestRun completed0 ok).completed =
      completed0 ++
        (DATASET_KEYS.filter (fun x => !completed0.contains x)).filter ok := by
    simpa [ingestRun] using htr.2
  have hknc : k ∉ completed0 := by
    intro hmem
    have : completed0.contains k = true := by simpa using hmem
    rw [this] at hnc
    cases hnc
  refine ⟨?_, ?_, ?_⟩
  · rw [hcomp]
    intro hmem
    rcases List.mem_append.mp hmem with hmem | hmem
    · exact hknc hmem
    · have := (List.mem_filter.mp hmem).2
      rw [hfail] at this
      cases this
  · intro c hc hkc
    rw [htrace] at hc
    rcases traceFrom_saves ok completed0 _ c hc k hkc with hco | hco
    · exact hknc hco
    · rw [hfail] at hco
      cases hco.2
  · show (ingestRun completed0 ok).trace.filterMap _ = _
    rw [htrace, traceFrom_fetched]

/-- C5 witness: a failing fetch of "fmr_2025" in a fresh run leaves it out
of the completed set and out of every persisted checkpoint, while all four
keys are still attempted. -/
theorem claim_C5_witness :
    "fmr_2025" ∉ (ingestRun [] (fun x => !(x == "fmr_2025"))).completed ∧
    fetchedKeys (ingestRun [] (fun x => !(x == "fmr_2025"))) =
      ["fmr_2024", "fmr_2025", "income_limits_2024", "pit_2024"] := by
  have h := claim_C5 [] (fun x => !(x == "fmr_2025")) "fmr_2025"
    (by decide) rfl (by decide)
  refine ⟨h.1, ?_⟩
  rw [h.2.2]
  decide

/-! Section: Claim C6: validation gates publication -/

/-- C6: in every transform run the validation step heads the action trace,
and when validation fails the run aborts with no sync of data or metadata
(the previously published dataset is untouched because no publish action
occurs at all). -/
theorem claim_C6 (t u v : DF) (hf : ¬ fmrTest t) (hi : ¬ incomeLimitsTest u)
    (hh : ¬ homelessTest v) :
    fmrRun t = ([RunAct.validateData], false) ∧
    ilRun u = ([RunAct.validateData], false) ∧
    hcRun v = ([RunAct.validateData], false) ∧
    RunAct.syncData ∉ (fmrRun t).1 ∧ RunAct.syncMetadata ∉ (fmrRun t).1 ∧
    RunAct.syncData ∉ (ilRun u).1 ∧ RunAct.syncMetadata ∉ (ilRun u).1 ∧
    RunAct.syncData ∉ (hcRun v).1 ∧ RunAct.syncMetadata ∉ (hcRun v).1 ∧
    (∀ w, (fmrRun w).1.head? = Option.some RunAct.validateData) ∧
    (∀ w, (ilRun w).1.head? = Option.some RunAct.validateData) ∧
    (∀ w, (hcRun w).1.head? = Option.some RunAct.validateData) := by
  refine ⟨by simp [fmrRun, hf], by simp [ilRun, hi], by simp [hcRun, hh],
    by simp [fmrRun, hf], by simp [fmrRun, hf],
    by simp [ilRun, hi], by simp [ilRun, hi],
    by simp [hcRun, hh], by simp [hcRun, hh], ?_, ?_, ?_⟩
  · intro w
    unfold fmrRun
    split <;> rfl
  · intro w
    unfold ilRun
    split <;> rfl
  · intro w
    unfold hcRun
    split <;> rfl

/-- C6 witness: an empty table fails each validator (its row count is below
the declared minimum), and each run then stops after the validation step. -/
theorem claim_C6_witness :
    fmrRun ⟨[], []⟩ = ([RunAct.validateData], false) ∧
    ilRun ⟨[], []⟩ = ([RunAct.validateData], false) ∧
    hcRun ⟨[], []⟩ = ([RunAct.validateData], false) := by
  have h := claim_C6 ⟨[], []⟩ ⟨[], []⟩ ⟨[], []⟩
    (by decide) (by decide) (by decide)
  exact ⟨h.1, h.2.1, h.2.2.1⟩

/-! Section: Claim C2: income-tier ordering across household sizes -/

/-- Definition following the claim's words, for comparison with the code:
the income-tier ordering across every household-size column 1–8. -/
def tierOrderAll8 (t : DF) : Prop :=
  ∀ r ∈ t.rows, ∀ k ∈ [1, 2, 3, 4, 5, 6, 7, 8],
    cellLeB (rowGet r ("eli_" ++ toString (k : Nat)) Cell.none)
      (rowGet r ("vli_" ++ toString k) Cell.none) = true ∧
    cellLeB (rowGet r ("vli_" ++ toString k) Cell.none)
      (rowGet r ("li_" ++ toString k) Cell.none) = true

/-- a string of `n` letters, used to generate pairwise distinct codes. -/
def arep (n : Nat) : String := String.mk (List.replicate n 'a')

lemma arep_inj : Function.Injective arep := by
  intro a b h
  have h2 : (arep a).data.length = (arep b).data.length := by rw [h]
  simpa [arep] using h2

/-- row `i` of a table that satisfies every check of the income-limits
`test` yet violates the tier ordering in the 1-person column. -/
def ilRowC (i : Nat) : Row :=
  [("fips", Cell.str (arep i)), ("state_code", Cell.str (arep i)),
   ("state_fips", Cell.str "06"), ("state_name", Cell.str "California"),
   ("hud_area_code", Cell.str "METRO"), ("hud_area_name", Cell.str "Area"),
   ("county_fips", Cell.str "001"), ("county_name", Cell.str "County"),
   ("metro", Cell.int 0), ("fiscal_year", Cell.str "2024"),
   ("median_income", Cell.int 100000),
   ("eli_1", Cell.int 100), ("eli_4", Cell.int 30000),
   ("vli_1", Cell.int 10), ("vli_4", Cell.int 50000),
   ("li_1", Cell.int 20), ("li_4", Cell.int 80000)]

/-- a 4500-row table passing the income-limits validator while its eli_1
exceeds its vli_1 in every row. -/
def ilBad : DF :=
  ⟨["fips", "state_code", "state_fips", "state_name", "hud_area_code",
    "hud_area_name", "county_fips", "county_name", "metro", "fiscal_year",
    "median_income", "eli_1", "eli_4", "vli_1", "vli_4", "li_1", "li_4"],
   (List.range 4500).map ilRowC⟩

set_option maxRecDepth 100000 in
lemma ilBad_rows : ilBad.rows = (List.range 4500).map ilRowC := rfl

lemma colCells_ilBad (c : String) :
    colCells ilBad c =
      (List.range 4500).map (fun i => rowGet (ilRowC i) c Cell.none) := by
  unfold colCells
  rw [ilBad_rows, List.map_map]
  rfl

lemma ilRowC_fips (i : Nat) : rowGet (ilRowC i) "fips" Cell.none =
    Cell.str (arep i) := rfl

lemma ilRowC_state_code (i : Nat) : rowGet (ilRowC i) "state_code" Cell.none =
    Cell.str (arep i) := rfl

lemma ilRowC_metro (i : Nat) : rowGet (ilRowC i) "metro" Cell.none =
    Cell.int 0 := rfl

lemma ilRowC_fiscal_year (i : Nat) :
    rowGet (ilRowC i) "fiscal_year" Cell.none = Cell.str "2024" := rfl

lemma ilRowC_median_income (i : Nat) :
    rowGet (ilRowC i) "median_income" Cell.none = Cell.int 100000 := rfl

lemma ilRowC_eli_1 (i : Nat) : rowGet (ilRowC i) "eli_1" Cell.none =
    Cell.int 100 := rfl

lemma ilRowC_eli_4 (i : Nat) : rowGet (ilRowC i) "eli_4" Cell.none =
    Cell.int 30000 := rfl

lemma ilRowC_vli_1 (i : Nat) : rowGet (ilRowC i) "vli_1" Cell.none =
    Cell.int 10 := rfl

lemma ilRowC_vli_4 (i : Nat) : rowGet (ilRowC i) "vli_4" Cell.none =
    Cell.int 50000 := rfl

lemma ilRowC_li_4 (i : Nat) : rowGet (ilRowC i) "li_4" Cell.none =
    Cell.int 80000 := rfl

lemma ilRowC_county_name (i : Nat) :
    rowGet (ilRowC i) "county_name" Cell.none = Cell.str "County" := rfl

lemma ilBad_validate : validate ilBad ilConfig := by
  refine ⟨?_, ?_, ?_, ?_⟩
  · intro p hp
    refine ⟨by fin_cases hp <;> decide, ?_⟩
    intro r hr
    rw [ilBad_rows] at hr
    obtain ⟨i, _, rfl⟩ := List.mem_map.mp hr
    fin_cases hp <;> rfl
  · intro c hc r hr
    rw [ilBad_rows] at hr
    obtain ⟨i, _, rfl⟩ := List.mem_map.mp hr
    fin_cases hc <;>
      simp [ilRowC_fips, ilRowC_state_code, ilRowC_county_name,
        ilRowC_fiscal_year, ilRowC_median_income]
  · show (ilBad.rows.map _).Nodup
    rw [ilBad_rows, List.map_map]
    refine List.Nodup.map ?_ (List.nodup_range 4500)
    intro a b hab
    have h3 : [Cell.str (arep a)] = [Cell.str (arep b)] := hab
    have h4 : Cell.str (arep a) = Cell.str (arep b) := by injection h3
    have h5 : arep a = arep b := by injection h4
    exact arep_inj h5
  · show (4500 : Nat) ≤ ilBad.rows.length
    rw [ilBad_rows, List.length_map, List.length_range]

lemma ilBad_passes : incomeLimitsTest ilBad := by
  refine ⟨ilBad_validate, ?_, ⟨?_, ?_⟩, ?_, ?_, ?_, ?_, ?_, ?_, ?_, ?_⟩
  · intro v hv
    rw [colCells_ilBad] at hv
    obtain ⟨i, _, rfl⟩ := List.mem_map.mp hv
    rw [ilRowC_fiscal_year]; decide
  · rw [colCells_ilBad]
    simp
  · intro v hv
    rw [colCells_ilBad] at hv
    obtain ⟨i, _, rfl⟩ := List.mem_map.mp hv
    rw [ilRowC_fiscal_year]
  · intro v hv
    rw [colCells_ilBad] at hv
    obtain ⟨i, _, rfl⟩ := List.mem_map.mp hv
    rw [ilRowC_median_income]; decide
  · intro v hv
    rw [colCells_ilBad] at hv
    obtain ⟨i, _, rfl⟩ := List.mem_map.mp hv
    rw [ilRowC_eli_4]; decide
  · intro v hv
    rw [colCells_ilBad] at hv
    obtain ⟨i, _, rfl⟩ := List.mem_map.mp hv
    rw [ilRowC_vli_4]; decide
  · intro v hv
    rw [colCells_ilBad] at hv
    obtain ⟨i, _, rfl⟩ := List.mem_map.mp hv
    rw [ilRowC_li_4]; decide
  · intro r hr
    rw [ilBad_rows] at hr
    obtain ⟨i, _, rfl⟩ := List.mem_map.mp hr
    rw [ilRowC_eli_4, ilRowC_vli_4]; decide
  · intro r hr
    rw [ilBad_rows] at hr
    obtain ⟨i, _, rfl⟩ := List.mem_map.mp hr
    rw [ilRowC_vli_4, ilRowC_li_4]; decide
  · intro v hv
    rw [colCells_ilBad] at hv
    obtain ⟨i, _, rfl⟩ := List.mem_map.mp hv
    rw [ilRowC_metro]; decide
  · rw [colCells_ilBad]
    have heq : (List.range 4500).map
        (fun i => rowGet (ilRowC i) "state_code" Cell.none) =
        (List.range 4500).map (fun i => Cell.str (arep i)) := by
      simp [ilRowC_state_code]
    rw [heq]
    have hnd : ((List.range 4500).map (fun i => Cell.str (arep i))).Nodup := by
      refine List.Nodup.map ?_ (List.nodup_range 4500)
      intro a b h
      have h5 : arep a = arep b := by injection h
      exact arep_inj h5
    rw [List.Nodup.dedup hnd, List.length_map, List.length_range]
    omega

/-- C2: counterexample.  The income-limits validator checks the
extremely-low ≤ very-low ≤ low ordering only on the 4-person household
columns (`eli_4` / `vli_4` / `li_4`); `ilBad` passes every check of the
validator while violating the ordering in the 1-person column of every row
(eli_1 = 100 > vli_1 = 10), refuting the claim that a violation in any
household-size column fails validation. -/
theorem claim_C2_counterexample :
    incomeLimitsTest ilBad ∧ ¬ tierOrderAll8 ilBad := by
  refine ⟨ilBad_passes, ?_⟩
  intro h
  have hmem : ilRowC 0 ∈ ilBad.rows := by
    rw [ilBad_rows]
    exact List.mem_map.mpr ⟨0, List.mem_range.mpr (by omega), rfl⟩
  have h1 := h (ilRowC 0) hmem 1 (by decide)
  have h2 : cellLeB (rowGet (ilRowC 0) "eli_1" Cell.none)
      (rowGet (ilRowC 0) "vli_1" Cell.none) = true := h1.1
  rw [ilRowC_eli_1, ilRowC_vli_1] at h2
  exact absurd h2 (by decide)

/-- C2 (amended): a table accepted by the income-limits validator satisfies
extremely-low ≤ very-low ≤ low on the 4-person household columns in every
row; the checks for the other household sizes (1–3, 5–8) are not enforced. -/
theorem claim_C2_amended (t : DF) (h : incomeLimitsTest t) :
    ∀ r ∈ t.rows,
      cellLeB (rowGet r "eli_4" Cell.none) (rowGet r "vli_4" Cell.none) = true ∧
      cellLeB (rowGet r "vli_4" Cell.none) (rowGet r "li_4" Cell.none) = true := by
  intro r hr
  exact ⟨h.2.2.2.2.2.2.2.1 r hr, h.2.2.2.2.2.2.2.2.1 r hr⟩

/-- C2 witness: the amended statement applied to the accepted table `ilBad`
at its first row. -/
theorem claim_C2_witness :
    cellLeB (rowGet (ilRowC 0) "eli_4" Cell.none)
      (rowGet (ilRowC 0) "vli_4" Cell.none) = true ∧
    cellLeB (rowGet (ilRowC 0) "vli_4" Cell.none)
      (rowGet (ilRowC 0) "li_4" Cell.none) = true :=
  claim_C2_amended ilBad ilBad_passes (ilRowC 0)
    (by rw [ilBad_rows]
        exact List.mem_map.mpr ⟨0, List.mem_range.mpr (by omega), rfl⟩)
